import Mathlib

/-!
Verification of the p.est.im paste-service core (`src/index.ts`).

A shallow embedding of the Cloudflare-Worker paste service:
byte buffers are `List (Fin 256)`, the D1 `pastes` table is an
association list, `DataView` reads are `Option`-valued (a `none`
models a thrown `RangeError`), and the deferred `ctx.waitUntil`
side effects (counter update, expiry sweep, cache put) are applied
to the state returned by each operation.
-/

namespace PasteService

/-- A byte of a `Uint8Array` / `ArrayBuffer`. -/
abbrev Byte := Fin 256

/-- Models `DataView.getUint8`: reads one byte, throwing (`none`) when out of range. -/
def getU8 (bs : List Byte) (i : Nat) : Option Nat :=
  (bs.get? i).map Fin.val

/-- Models `DataView.getUint16(i, false)` — big-endian, bounds-checked by `Option`. -/
def getU16BE (bs : List Byte) (i : Nat) : Option Nat :=
  match getU8 bs i, getU8 bs (i + 1) with
  | some a, some b => some (a * 256 + b)
  | _, _ => none

/-- Models `DataView.getUint16(i, true)` — little-endian. -/
def getU16LE (bs : List Byte) (i : Nat) : Option Nat :=
  match getU8 bs i, getU8 bs (i + 1) with
  | some a, some b => some (a + b * 256)
  | _, _ => none

/-- Models `DataView.getUint32(i, false)` — big-endian. -/
def getU32BE (bs : List Byte) (i : Nat) : Option Nat :=
  match getU8 bs i, getU8 bs (i + 1), getU8 bs (i + 2), getU8 bs (i + 3) with
  | some a, some b, some c, some d => some (((a * 256 + b) * 256 + c) * 256 + d)
  | _, _, _, _ => none

/-- Models `DataView.getUint32(i, true)` — little-endian. -/
def getU32LE (bs : List Byte) (i : Nat) : Option Nat :=
  match getU8 bs i, getU8 bs (i + 1), getU8 bs (i + 2), getU8 bs (i + 3) with
  | some a, some b, some c, some d => some (a + (b + (c + d * 256) * 256) * 256)
  | _, _, _, _ => none

/--
WHATWG `TextDecoder` (UTF-8, non-fatal) producing the UTF-16 code units of
the resulting JavaScript string (astral code points yield a surrogate pair,
since `String.prototype.slice` and `startsWith` index code units).
The fuel is an upper bound on the number of bytes still to consume; every
step consumes at least one byte, so `fuel = length` never runs out.
-/
def utf8Aux : Nat → List Nat → List Nat
  | 0, _ => []
  | _, [] => []
  | fuel + 1, b :: rest =>
    if b < 0x80 then b :: utf8Aux fuel rest
    else if b < 0xC2 then 0xFFFD :: utf8Aux fuel rest
    else if b < 0xE0 then
      match rest with
      | [] => [0xFFFD]
      | c :: r2 =>
        if 0x80 ≤ c ∧ c ≤ 0xBF then
          ((b - 0xC0) * 64 + (c - 0x80)) :: utf8Aux fuel r2
        else 0xFFFD :: utf8Aux fuel (c :: r2)
    else if b < 0xF0 then
      let lo := if b = 0xE0 then 0xA0 else 0x80
      let hi := if b = 0xED then 0x9F else 0xBF
      match rest with
      | [] => [0xFFFD]
      | c :: r2 =>
        if lo ≤ c ∧ c ≤ hi then
          match r2 with
          | [] => [0xFFFD]
          | c2 :: r3 =>
            if 0x80 ≤ c2 ∧ c2 ≤ 0xBF then
              ((b - 0xE0) * 4096 + (c - 0x80) * 64 + (c2 - 0x80)) :: utf8Aux fuel r3
            else 0xFFFD :: utf8Aux fuel (c2 :: r3)
        else 0xFFFD :: utf8Aux fuel (c :: r2)
    else if b < 0xF5 then
      let lo := if b = 0xF0 then 0x90 else 0x80
      let hi := if b = 0xF4 then 0x8F else 0xBF
      match rest with
      | [] => [0xFFFD]
      | c :: r2 =>
        if lo ≤ c ∧ c ≤ hi then
          match r2 with
          | [] => [0xFFFD]
          | c2 :: r3 =>
            if 0x80 ≤ c2 ∧ c2 ≤ 0xBF then
              match r3 with
              | [] => [0xFFFD]
              | c3 :: r4 =>
                if 0x80 ≤ c3 ∧ c3 ≤ 0xBF then
                  let cp := (b - 0xF0) * 262144 + (c - 0x80) * 4096 + (c2 - 0x80) * 64 + (c3 - 0x80)
                  (0xD800 + (cp - 0x10000) / 1024) :: (0xDC00 + (cp - 0x10000) % 1024) :: utf8Aux fuel r4
                else 0xFFFD :: utf8Aux fuel (c3 :: r4)
            else 0xFFFD :: utf8Aux fuel (c2 :: r3)
        else 0xFFFD :: utf8Aux fuel (c :: r2)
    else 0xFFFD :: utf8Aux fuel rest

/-- UTF-16 code units of `new TextDecoder().decode(bytes)`. -/
def utf8DecodeUnits (l : List Nat) : List Nat := utf8Aux l.length l

/-- Computes `headerText = new TextDecoder().decode(bytes.slice(0, 16))`, as code units. -/
def headerTextOf (bs : List Byte) : List Nat :=
  utf8DecodeUnits ((bs.take 16).map Fin.val)

/-- Result record of the content sniffer (`ContentInfo` in the source). -/
structure ContentInfo where
  mime : String
  extension : String
  width : Option Nat
  height : Option Nat
deriving DecidableEq, Repr

/--
The check `headerHex.startsWith("89504e47")`: the hex string of the first 16 bytes
(each byte rendering as exactly two hex digits) starts with the 8 hex digits
`89504e47` iff the first four bytes are `89 50 4E 47`.
-/
def pngCheck (bs : List Byte) : Bool :=
  [(0x89 : Byte), 0x50, 0x4e, 0x47].isPrefixOf bs

/-- The check `headerText.startsWith("GIF8")` — ASCII `G` `I` `F` `8` as code units. -/
def gifCheck (bs : List Byte) : Bool :=
  [(71 : Nat), 73, 70, 56].isPrefixOf (headerTextOf bs)

/-- The check `headerHex.startsWith("ffd8ff")` ⟺ the first three bytes are `FF D8 FF`. -/
def jpegCheck (bs : List Byte) : Bool :=
  [(0xFF : Byte), 0xD8, 0xFF].isPrefixOf bs

/-- The check `headerText.startsWith("RIFF") && headerText.slice(8, 12) === "WEBP"`. -/
def riffWebpCheck (bs : List Byte) : Bool :=
  [(82 : Nat), 73, 70, 70].isPrefixOf (headerTextOf bs) &&
    decide (((headerTextOf bs).drop 8).take 4 = [87, 69, 66, 80])

/-- SOF0–SOF15 excluding SOF4/SOF8/SOF12 (`FFC4`, `FFC8`, `FFCC`). -/
def isSOF (marker : Nat) : Bool :=
  0xFFC0 ≤ marker && marker ≤ 0xFFCF &&
    marker ≠ 0xFFC4 && marker ≠ 0xFFC8 && marker ≠ 0xFFCC

/--
The JPEG marker-scan loop (`while (offset < bytes.length) ...`).
Each iteration advances `offset` by at least 2, so `fuel = bs.length + 1`
(supplied by `jpegScan`) never runs out; `none` models a thrown
`RangeError` from an out-of-range `DataView` read.
-/
def jpegAux (bs : List Byte) : Nat → Nat → Option ContentInfo
  | 0, _ => none
  | fuel + 1, offset =>
    if offset < bs.length then
      match getU16BE bs offset with
      | none => none
      | some marker =>
        if isSOF marker then
          match getU16BE bs (offset + 3), getU16BE bs (offset + 5) with
          | some height, some width =>
            some ⟨"image/jpeg", ".jpg", some width, some height⟩
          | _, _ => none
        else
          match getU16BE bs (offset + 2) with
          | none => none
          | some seg => jpegAux bs fuel (offset + 2 + seg)
    else some ⟨"image/jpeg", ".jpg", none, none⟩

/-- JPEG branch of `analyzeContent`, starting the scan at offset 2. -/
def jpegScan (bs : List Byte) : Option ContentInfo :=
  jpegAux bs (bs.length + 1) 2

/--
The function `analyzeContent` from `src/index.ts`. `none` models a thrown exception
(an unchecked out-of-range `DataView` read). The JavaScript `>>`/`&`
arithmetic on `getUint32` results is expressed over `Nat`; sign extension
under `ToInt32` never changes the extracted 14-bit fields because the
shift amounts are multiples neither operation lets reach the low bits.
-/
def analyzeContent (bs : List Byte) : Option ContentInfo :=
  if pngCheck bs then
    match getU32BE bs 16, getU32BE bs 20 with
    | some w, some h => some ⟨"image/png", ".png", some w, some h⟩
    | _, _ => none
  else if gifCheck bs then
    match getU16LE bs 6, getU16LE bs 8 with
    | some w, some h => some ⟨"image/gif", ".gif", some w, some h⟩
    | _, _ => none
  else if jpegCheck bs then
    jpegScan bs
  else if riffWebpCheck bs then
    let ty := ((headerTextOf bs).drop 12).take 4
    if ty = [86, 80, 56, 32] then        -- "VP8 "
      match getU32LE bs 26 with
      | some tmp => some ⟨"image/webp", ".webp", some (tmp % 16384), some ((tmp / 65536) % 16384)⟩
      | none => none
    else if ty = [86, 80, 56, 76] then   -- "VP8L"
      match getU32LE bs 21 with
      | some tmp => some ⟨"image/webp", ".webp", some (1 + tmp % 16384), some (1 + (tmp / 16384) % 16384)⟩
      | none => none
    else if ty = [86, 80, 56, 88] then   -- "VP8X"
      match getU16LE bs 24, getU8 bs 26, getU16LE bs 27, getU8 bs 29 with
      | some w16, some w8, some h16, some h8 =>
        some ⟨"image/webp", ".webp", some (1 + (w16 + w8 * 65536)), some (1 + (h16 + h8 * 65536))⟩
      | _, _, _, _ => none
    else some ⟨"image/webp", ".webp", none, none⟩
  else some ⟨"text/plain", "", none, none⟩

/-- The 62-symbol alphanumeric alphabet of `generateId`. -/
def ID_CHARS : List Char :=
  "abcdefghijklmnopqrstuvwxyzABCDEFGHIJKLMNOPQRSTUVWXYZ0123456789".toList

/--
The function `generateId(length)`: each loop iteration appends
`chars.charAt(Math.floor(Math.random() * chars.length))`; the random draws
are `r 0, r 1, …`, each already reduced to an index below 62.
-/
def generateId (r : Nat → Fin 62) (len : Nat) : String :=
  ⟨(List.range len).map (fun i => ID_CHARS.getD (r i).val 'a')⟩

/-- The allow-list for extensions taken from the request path. -/
def ALLOWED_EXTS : List String := [".md", ".txt", ".json", ".html", ".js", ".css"]

/--
The extension fallback on PUT: keep the sniffed extension if non-empty,
otherwise, when the original path contains a dot, use its lower-cased last
`"."`-separated component if it is on the allow-list.
-/
def extFallback (infoExt : String) (path : String) : String :=
  if infoExt = "" && path.toList.contains '.' then
    let ext := "." ++ (path.splitOn ".").getLastD ""
    if ALLOWED_EXTS.contains ext.toLower then ext.toLower else infoExt
  else infoExt

/-- Left-pad a numeral to two digits. -/
def pad2 (n : Nat) : String := if n < 10 then "0" ++ toString n else toString n

/-- Left-pad a numeral to three digits. -/
def pad3 (n : Nat) : String :=
  if n < 10 then "00" ++ toString n else if n < 100 then "0" ++ toString n else toString n

/-- Left-pad a numeral to four digits. -/
def pad4 (n : Nat) : String :=
  if n < 10 then "000" ++ toString n
  else if n < 100 then "00" ++ toString n
  else if n < 1000 then "0" ++ toString n
  else toString n

/-- Proleptic-Gregorian civil date from days since 1970-01-01 (for `Date#toISOString`). -/
def civilFromDays (z : Nat) : Nat × Nat × Nat :=
  let z' := z + 719468
  let era := z' / 146097
  let doe := z' % 146097
  let yoe := (doe - doe / 1460 + doe / 36524 - doe / 146096) / 365
  let y := yoe + era * 400
  let doy := doe - (365 * yoe + yoe / 4 - yoe / 100)
  let mp := (5 * doy + 2) / 153
  let d := doy - (153 * mp + 2) / 5 + 1
  let m := if mp < 10 then mp + 3 else mp - 9
  (if m ≤ 2 then y + 1 else y, m, d)

/-- Computes `new Date(ms).toISOString()` for a non-negative epoch millisecond count. -/
def isoFromMillis (ms : Nat) : String :=
  let s := ms / 1000
  let days := s / 86400
  let rem := s % 86400
  let c := civilFromDays days
  pad4 c.1 ++ "-" ++ pad2 c.2.1 ++ "-" ++ pad2 c.2.2 ++ "T" ++
    pad2 (rem / 3600) ++ ":" ++ pad2 ((rem % 3600) / 60) ++ ":" ++ pad2 (rem % 60) ++
    "." ++ pad3 (ms % 1000) ++ "Z"

/-- Computes `iso.replace(/[-:T]/g, '').slice(0, 14)` — the retry disambiguator. -/
def compactTimestamp (iso : String) : String :=
  ⟨(iso.toList.filter (fun c => c ≠ '-' && c ≠ ':' && c ≠ 'T')).take 14⟩

/-- The `counters` metadata record, `JSON.stringify` of the views counter. -/
structure Counters where
  views : Nat
deriving DecidableEq, Repr

/-- The `system_info` metadata record written at creation. -/
structure SysInfo where
  mime : String
  deleteToken : String
  original_path : String
  width : Option Nat
  height : Option Nat
deriving DecidableEq, Repr

/--
One row of the `pastes` table. `uploader_info` is carried as its serialized
text envelope (an opaque write-once blob to every operation modelled here);
`ctime` is the insert-time default, `atime` is NULL until the first read.
-/
structure Row where
  content : List Byte
  uploader_info : String
  counters : Counters
  system_info : SysInfo
  ctime : Nat
  etime : Nat
  atime : Option Nat
deriving DecidableEq, Repr

/-- The `pastes` table: id column (primary key) to row. -/
abbrev Store := List (String × Row)

/-- First-match association lookup (`SELECT … WHERE id = ?1`, header access). -/
def alookup {β : Type} (key : String) : List (String × β) → Option β
  | [] => none
  | e :: es => if e.1 = key then some e.2 else alookup key es

/-- Models `DELETE FROM pastes WHERE etime < ?1` — the opportunistic sweep on PUT. -/
def sweep (now : Nat) (store : Store) : Store :=
  store.filter (fun e => decide (now ≤ e.2.etime))

/-- Models `DELETE FROM pastes WHERE id = ?1`. -/
def eraseId (store : Store) (id : String) : Store :=
  store.filter (fun e => decide (e.1 ≠ id))

/-- Models `UPDATE pastes SET … WHERE id = ?1`, applying `f` to the matching row. -/
def updateRow (store : Store) (id : String) (f : Row → Row) : Store :=
  store.map (fun e => if e.1 = id then (e.1, f e.2) else e)

/-- A response body: empty (`null`), a text body, raw bytes, or the Markdown
HTML page (the fixed template instantiated with the escaped decoded content
and the injected view count; its literal HTML text is not needed by any
claim and is represented by its three parameters). -/
inductive Body where
  | empty : Body
  | text : String → Body
  | bytes : List Byte → Body
  | mdHtml : String → List Nat → Nat → Body
deriving DecidableEq, Repr

/-- An outbound HTTP response. -/
structure Resp where
  status : Nat
  headers : List (String × String)
  body : Body
deriving DecidableEq, Repr

/-- Models `Headers#set`: replace the value of an existing header, else append. -/
def setHeader (hs : List (String × String)) (n v : String) : List (String × String) :=
  if hs.any (fun p => p.1 = n) then hs.map (fun p => if p.1 = n then (n, v) else p)
  else hs ++ [(n, v)]

/-- The CSP applied when `isHtml` is set (Markdown viewer page). -/
def CSP_HTML : String :=
  "default-src \x27none\x27; script-src https://cdnjs.cloudflare.com; style-src \x27unsafe-inline\x27 https://cdnjs.cloudflare.com; img-src *; font-src https://cdnjs.cloudflare.com;"

/-- The default-deny CSP for non-HTML responses. -/
def CSP_DEFAULT : String :=
  "default-src \x27none\x27; script-src \x27none\x27; style-src \x27none\x27; img-src \x27self\x27;"

/-- Models `SecureResponse(body, init)`: sets the three fixed security headers and
the flag-selected `Content-Security-Policy` on top of the given headers. -/
def SecureResponse (body : Body) (status : Nat) (headers : List (String × String))
    (isHtml : Bool) : Resp :=
  let h1 := setHeader headers "X-Content-Type-Options" "nosniff"
  let h2 := setHeader h1 "X-Frame-Options" "DENY"
  let h3 := setHeader h2 "Referrer-Policy" "strict-origin-when-cross-origin"
  let h4 := setHeader h3 "Content-Security-Policy" (if isHtml then CSP_HTML else CSP_DEFAULT)
  ⟨status, h4, body⟩

/--
The hot-linking guard: `Sec-Fetch-Site` present, truthy (non-empty) and
neither `same-origin` nor `same-site`, and `Sec-Fetch-Dest` present, truthy
and not `document`.
-/
def hotlinkBlocked (site dest : Option String) : Bool :=
  match site with
  | none => false
  | some s =>
    s ≠ "" && s ≠ "same-origin" && s ≠ "same-site" &&
      (match dest with
       | none => false
       | some d => d ≠ "" && d ≠ "document")

/-- Substring test (`String.prototype.includes`) on character lists. -/
def containsSub (s pat : String) : Bool :=
  (List.range (s.toList.length + 1)).any (fun i => pat.toList.isPrefixOf (s.toList.drop i))

/-- The Markdown-rendering condition: `id.endsWith(".md") && accept.includes("text/html")`. -/
def mdRender (id accept : String) : Bool :=
  id.endsWith ".md" && containsSub accept "text/html"

/-- A GET request as the handler consumes it: the path id and the three headers read. -/
structure GetReq where
  id : String
  fetchSite : Option String
  fetchDest : Option String
  accept : Option String
deriving Repr

/-- Models `UPDATE pastes SET counters = …, atime = now, etime = now + TTL` on read. -/
def refreshRow (TTL now : Nat) (row : Row) : Row :=
  { row with counters := ⟨row.counters.views + 1⟩, atime := some now, etime := now + TTL }

/-- The headers of a cache-miss GET response before `SecureResponse` adds its own. -/
def getLiveHeaders (TTL now : Nat) (row : Row) : List (String × String) :=
  let newExpiresAt := now + TTL
  let base := [("Content-Type", if row.system_info.mime = "" then "text/plain" else row.system_info.mime),
               ("Cache-Control", "public, max-age=" ++ toString (Nat.max 0 (newExpiresAt - now))),
               ("X-Paste-Views", toString (row.counters.views + 1)),
               ("X-Paste-Expires-At", isoFromMillis (newExpiresAt * 1000))]
  match row.system_info.width, row.system_info.height with
  | some w, some h =>
    if w ≠ 0 && h ≠ 0 then base ++ [("X-Image-Dimensions", toString w ++ "x" ++ toString h)]
    else base
  | _, _ => base

/-- The raw-content response of a cache-miss GET of a live paste. -/
def liveResp (TTL now : Nat) (row : Row) : Resp :=
  SecureResponse (Body.bytes row.content) 200 (getLiveHeaders TTL now row) false

/-- The Markdown HTML response (`Content-Type: text/html;charset=UTF-8`, HTML CSP). -/
def mdResp (id : String) (row : Row) : Resp :=
  SecureResponse (Body.mdHtml id (utf8DecodeUnits (row.content.map Fin.val)) (row.counters.views + 1))
    200 [("Content-Type", "text/html;charset=UTF-8")] true

/--
The `GET /{id}` branch of `fetch`. Returns the response, the store after the
deferred row update or lazy deletion, and the edge-cache entry for this
request after the deferred `cache.put`. `cache` is the entry `cache.match`
finds (`none` on a miss).
-/
def getModel (TTL : Nat) (req : GetReq) (cache : Option Resp) (now : Nat)
    (store : Store) : Resp × Store × Option Resp :=
  if hotlinkBlocked req.fetchSite req.fetchDest then
    (SecureResponse (Body.text "") 403 [] false, store, cache)
  else
    match cache with
    | some c => (c, store, cache)
    | none =>
      match alookup req.id store with
      | none => (⟨404, [], Body.empty⟩, store, cache)
      | some paste =>
        if paste.etime < now then
          (⟨410, [], Body.empty⟩, eraseId store req.id, cache)
        else
          let store' := updateRow store req.id (refreshRow TTL now)
          if mdRender req.id (req.accept.getD "") then
            (mdResp req.id paste, store', cache)
          else
            (liveResp TTL now paste, store', some (liveResp TTL now paste))

/-- A PUT request: the explicit path (already stripped of the leading `/`),
the declared `Content-Length`, the body bytes, the serialized uploader
metadata envelope, and the request origin. -/
structure PutReq where
  path : String
  contentLength : Nat
  body : List Byte
  uploaderInfo : String
  origin : String
deriving Repr

/-- The row a successful PUT inserts. -/
def putRow (req : PutReq) (uuid : String) (now TTL : Nat) (info : ContentInfo) : Row :=
  ⟨req.body, req.uploaderInfo, ⟨0⟩,
   ⟨info.mime, uuid, req.path, info.width, info.height⟩, now, now + TTL, none⟩

/-- The PUT success response: retrieval URL body plus the one-time delete token. -/
def putSuccessResp (origin fid uuid : String) : Resp :=
  ⟨200, [("X-Delete-Token", uuid), ("Content-Type", "text/plain")],
   Body.text (origin ++ "/" ++ fid ++ "\n")⟩

/-- The permanent-conflict response after the single timestamp-prefixed retry. -/
def conflictResp : Resp :=
  ⟨500, [], Body.text "Conflict persists after timestamp prefixing"⟩

/-- The oversized-payload response. -/
def tooLargeResp : Resp := ⟨413, [], Body.text "Content too large"⟩

/--
The `PUT` branch of `fetch`. `r` supplies the `Math.random` draws, `uuid`
the `crypto.randomUUID()` delete token, `now` the clock (seconds). An insert
conflicts exactly when the id is already a key of the store. The deferred
expired-row sweep is applied to the resulting store; `none` models an
uncaught exception thrown by `analyzeContent`. The third component of a
`some` result is the id inserted (when any).
-/
def putModel (TTL MAX_SIZE : Nat) (req : PutReq) (r : Nat → Fin 62) (uuid : String)
    (now : Nat) (store : Store) : Option (Resp × Store × Option String) :=
  if MAX_SIZE < req.contentLength then some (tooLargeResp, store, none)
  else if MAX_SIZE < req.body.length then some (tooLargeResp, store, none)
  else
    match analyzeContent req.body with
    | none => none
    | some info =>
      let extension := extFallback info.extension req.path
      let row := putRow req uuid now TTL info
      let pasteId := generateId r 6 ++ extension
      if (alookup pasteId store).isSome then
        let retryId := compactTimestamp (isoFromMillis (now * 1000)) ++ "-" ++ pasteId
        if (alookup retryId store).isSome then
          some (conflictResp, sweep now store, none)
        else
          some (putSuccessResp req.origin retryId uuid,
                sweep now ((retryId, row) :: store), some retryId)
      else
        some (putSuccessResp req.origin pasteId uuid,
              sweep now ((pasteId, row) :: store), some pasteId)

/-! ## View-counter observation sequences (for the monotonicity claim)

A client issuing sequential GETs for one id with no `Sec-Fetch` headers and
no `Accept` header. Each step may find the edge-cache entry evicted
(`evict = true` passes a cache miss to the handler); otherwise the entry
stored by the previous miss is replayed verbatim.
-/

/-- One GET: the reported `X-Paste-Views` header and the next store/cache state. -/
def viewsStep (TTL : Nat) (id : String) (now : Nat) (st : Store × Option Resp)
    (evict : Bool) : Option String × (Store × Option Resp) :=
  let out := getModel TTL ⟨id, none, none, none⟩ (if evict then none else st.2) now st.1
  (alookup "X-Paste-Views" out.1.headers, (out.2.1, out.2.2))

/-- The `X-Paste-Views` values reported by a sequence of GETs. -/
def viewsRun (TTL : Nat) (id : String) (now : Nat) :
    List Bool → (Store × Option Resp) → List (Option String)
  | [], _ => []
  | e :: es, st =>
    (viewsStep TTL id now st e).1 :: viewsRun TTL id now es (viewsStep TTL id now st e).2

/-- Abstract view sequence: state is the stored counter and cache presence;
a replayed cache hit reports the counter unchanged, a miss reports and
stores the incremented counter. -/
def viewsSpec : List Bool → Nat → Bool → List Nat
  | [], _, _ => []
  | e :: es, v, cached =>
    if !e && cached then v :: viewsSpec es v cached
    else (v + 1) :: viewsSpec es (v + 1) true

/-! ## Concrete fixtures -/

/-- A degenerate `Math.random` draw sequence: always the first alphabet symbol. -/
def constRandom : Nat → Fin 62 := fun _ => 0

/-- A minimal JPEG prefix: SOI, then an SOF0 segment with length `00 11`,
precision `08`, height `00 F0` (240) and width `01 40` (320). -/
def jpegFixture : List Byte :=
  [0xFF, 0xD8, 0xFF, 0xC0, 0x00, 0x11, 0x08, 0x00, 0xF0, 0x01, 0x40]

/-- Exactly the 8-byte PNG signature and nothing else. -/
def pngSignature : List Byte := [0x89, 0x50, 0x4E, 0x47, 0x0D, 0x0A, 0x1A, 0x0A]

/-- A 24-byte PNG prefix: signature, IHDR length/type, width 2, height 3. -/
def pngFixture : List Byte :=
  [0x89, 0x50, 0x4E, 0x47, 0x0D, 0x0A, 0x1A, 0x0A,
   0x00, 0x00, 0x00, 0x0D, 0x49, 0x48, 0x44, 0x52,
   0x00, 0x00, 0x00, 0x02, 0x00, 0x00, 0x00, 0x03]

/-- The ASCII bytes of `"Hello World"`. -/
def helloBytes : List Byte := [72, 101, 108, 108, 111, 32, 87, 111, 114, 108, 100]

/-- A stand-in stored row used to occupy ids in conflict scenarios. -/
def dummyRow : Row :=
  ⟨[0x79], "up", ⟨0⟩, ⟨"text/plain", "t0", "", none, none⟩, 0, 9999999999, none⟩

/-- A live row freshly created (zero views), used by witnesses. -/
def freshRow : Row :=
  ⟨helloBytes, "up", ⟨0⟩, ⟨"text/plain", "t1", "", none, none⟩, 0, 99, none⟩

/-- PUT of a valid PNG to the explicit path `/pic`. -/
def c1Req : PutReq := ⟨"pic", 24, pngFixture, "uinfo", "https://p.est.im"⟩

/-- Outcome of the explicit-path PUT on an empty store. -/
def c1Out : Option (Resp × Store × Option String) :=
  putModel 86400 1048576 c1Req constRandom "tok-1" 0 []

/-- Store after the explicit-path PUT. -/
def c1Store : Store := c1Out.elim [] (fun x => x.2.1)

/-- Response of the explicit-path PUT. -/
def c1Resp : Resp := c1Out.elim ⟨0, [], Body.empty⟩ (fun x => x.1)

/-- PUT of the single byte `x` with no explicit path. -/
def c3Req : PutReq := ⟨"", 1, [0x78], "uinfo", "https://p.est.im"⟩

/-- A store already holding both the random candidate id and its
timestamp-prefixed retry for the clock value 2026-01-01T00:00:00Z. -/
def c3Store : Store := [("aaaaaa", dummyRow), ("20260101000000-aaaaaa", dummyRow)]

/-- PUT of `"Hello World"` with no explicit path. -/
def c6Req : PutReq := ⟨"", 11, helloBytes, "uinfo", "https://p.est.im"⟩

/-- Outcome of the Hello-World PUT on an empty store at `now = 100`. -/
def c6Out : Option (Resp × Store × Option String) :=
  putModel 86400 1048576 c6Req constRandom "tok-6" 100 []

/-- Store after the Hello-World PUT. -/
def c6Store : Store := c6Out.elim [] (fun x => x.2.1)

/-- Response of the Hello-World PUT. -/
def c6Resp : Resp := c6Out.elim ⟨0, [], Body.empty⟩ (fun x => x.1)

/-! ## Helper lemmas -/

theorem alookup_map_setfun {n v m : String} (h : m ≠ n) (hs : List (String × String)) :
    alookup m (hs.map (fun p => if p.1 = n then (n, v) else p)) = alookup m hs := by
  induction hs with
  | nil => rfl
  | cons e t ih =>
    by_cases he : e.1 = n
    · simp only [List.map_cons, if_pos he, alookup]
      rw [if_neg (by simpa using (Ne.symm h)), if_neg (by rw [he]; exact Ne.symm h)]
      exact ih
    · simp only [List.map_cons, if_neg he, alookup]
      by_cases hm : e.1 = m
      · rw [if_pos hm, if_pos hm]
      · rw [if_neg hm, if_neg hm]; exact ih

theorem alookup_append_single {n v m : String} (h : m ≠ n) (hs : List (String × String)) :
    alookup m (hs ++ [(n, v)]) = alookup m hs := by
  induction hs with
  | nil => simp [alookup, Ne.symm h]
  | cons e t ih =>
    simp only [List.cons_append, alookup]
    by_cases hm : e.1 = m
    · rw [if_pos hm, if_pos hm]
    · rw [if_neg hm, if_neg hm]; exact ih

theorem alookup_setHeader_ne {m n : String} (hs : List (String × String)) (v : String)
    (h : m ≠ n) : alookup m (setHeader hs n v) = alookup m hs := by
  unfold setHeader
  split
  · exact alookup_map_setfun h hs
  · exact alookup_append_single h hs

theorem alookup_setHeader_self (hs : List (String × String)) (n v : String) :
    alookup n (setHeader hs n v) = some v := by
  unfold setHeader
  split
  case isTrue hany =>
    induction hs with
    | nil => simp at hany
    | cons e t ih =>
      by_cases he : e.1 = n
      · simp [alookup, if_pos he]
      · simp only [List.any_cons, Bool.or_eq_true, decide_eq_true_eq] at hany
        rcases hany with hany | hany
        · exact absurd hany he
        · simp only [List.map_cons, if_neg he, alookup, if_neg (fun hh => he hh)]
          exact ih hany
  case isFalse hany =>
    induction hs with
    | nil => simp [alookup]
    | cons e t ih =>
      simp only [List.any_cons, Bool.or_eq_true, decide_eq_true_eq, not_or] at hany
      simp only [List.cons_append, alookup, if_neg hany.1]
      exact ih (by simpa using hany.2)

theorem alookup_SecureResponse_ne (body : Body) (status : Nat)
    (hs : List (String × String)) (isHtml : Bool) (m : String)
    (h1 : m ≠ "X-Content-Type-Options") (h2 : m ≠ "X-Frame-Options")
    (h3 : m ≠ "Referrer-Policy") (h4 : m ≠ "Content-Security-Policy") :
    alookup m (SecureResponse body status hs isHtml).headers = alookup m hs := by
  unfold SecureResponse
  rw [alookup_setHeader_ne _ _ h4, alookup_setHeader_ne _ _ h3,
    alookup_setHeader_ne _ _ h2, alookup_setHeader_ne _ _ h1]

theorem generateId_length (r : Nat → Fin 62) (n : Nat) : (generateId r n).length = n := by
  simp [generateId, String.length]

theorem alookup_sweep_cons (now : Nat) (fid : String) (row : Row) (store : Store)
    (h : now ≤ row.etime) :
    alookup fid (sweep now ((fid, row) :: store)) = some row := by
  simp [sweep, List.filter_cons, h, alookup]

theorem alookup_updateRow_self (store : Store) (id : String) (f : Row → Row) :
    alookup id (updateRow store id f) = (alookup id store).map f := by
  induction store with
  | nil => rfl
  | cons e t ih =>
    by_cases he : e.1 = id
    · simp [updateRow, alookup, he]
    · simp only [updateRow, List.map_cons, if_neg he, alookup, if_neg he]
      exact ih

theorem alookup_updateRow_ne (store : Store) (id : String) (f : Row → Row) (j : String)
    (h : j ≠ id) : alookup j (updateRow store id f) = alookup j store := by
  induction store with
  | nil => rfl
  | cons e t ih =>
    by_cases he : e.1 = id
    · simp only [updateRow, List.map_cons, if_pos he, alookup,
        if_neg (fun hh : id = j => h hh.symm), if_neg (fun hh : e.1 = j => h (he ▸ hh).symm)]
      exact ih
    · simp only [updateRow, List.map_cons, if_neg he, alookup]
      by_cases hj : e.1 = j
      · rw [if_pos hj, if_pos hj]
      · rw [if_neg hj, if_neg hj]; exact ih

theorem alookup_eraseId_self (store : Store) (id : String) :
    alookup id (eraseId store id) = none := by
  induction store with
  | nil => rfl
  | cons e t ih =>
    by_cases he : e.1 = id
    · simpa [eraseId, List.filter_cons, he] using ih
    · simpa [eraseId, List.filter_cons, he, alookup] using ih

/-- Evaluation of a cache-miss GET of a live paste, not rendered as Markdown. -/
theorem getModel_live (TTL : Nat) (req : GetReq) (now : Nat) (store : Store) (row : Row)
    (hhot : hotlinkBlocked req.fetchSite req.fetchDest = false)
    (hlk : alookup req.id store = some row)
    (hlive : ¬ row.etime < now)
    (hmd : mdRender req.id (req.accept.getD "") = false) :
    getModel TTL req none now store =
      (liveResp TTL now row, updateRow store req.id (refreshRow TTL now),
       some (liveResp TTL now row)) := by
  simp [getModel, hhot, hlk, hlive, hmd]

theorem liveResp_XPV (TTL now : Nat) (row : Row) :
    alookup "X-Paste-Views" (liveResp TTL now row).headers =
      some (toString (row.counters.views + 1)) := by
  unfold liveResp
  rw [alookup_SecureResponse_ne _ _ _ _ _ (by decide) (by decide) (by decide) (by decide)]
  unfold getLiveHeaders
  rcases hw : row.system_info.width with _ | w
  · simp [hw, alookup]
  · rcases hh : row.system_info.height with _ | h
    · simp [hw, hh, alookup]
    · simp only [hw, hh]
      by_cases hwh : ¬w = 0 ∧ ¬h = 0
      · simp [hwh, alookup]
      · simp [hwh, alookup]

theorem liveResp_CT (TTL now : Nat) (row : Row) :
    alookup "Content-Type" (liveResp TTL now row).headers =
      some (if row.system_info.mime = "" then "text/plain" else row.system_info.mime) := by
  unfold liveResp
  rw [alookup_SecureResponse_ne _ _ _ _ _ (by decide) (by decide) (by decide) (by decide)]
  unfold getLiveHeaders
  rcases hw : row.system_info.width with _ | w
  · simp [hw, alookup]
  · rcases hh : row.system_info.height with _ | h
    · simp [hw, hh, alookup]
    · simp only [hw, hh]
      by_cases hwh : ¬w = 0 ∧ ¬h = 0
      · simp [hwh, alookup]
      · simp [hwh, alookup]

theorem liveResp_status (TTL now : Nat) (row : Row) : (liveResp TTL now row).status = 200 := rfl

theorem liveResp_body (TTL now : Nat) (row : Row) :
    (liveResp TTL now row).body = Body.bytes row.content := rfl

/-- Characterization of a PUT that succeeded and inserted an id. -/
theorem putModel_success (TTL MAX_SIZE : Nat) (req : PutReq) (r : Nat → Fin 62)
    (uuid : String) (now : Nat) (store : Store) (resp : Resp) (store' : Store) (fid : String)
    (h : putModel TTL MAX_SIZE req r uuid now store = some (resp, store', some fid)) :
    ∃ info, analyzeContent req.body = some info ∧
      resp = putSuccessResp req.origin fid uuid ∧
      store' = sweep now ((fid, putRow req uuid now TTL info) :: store) ∧
      (fid = generateId r 6 ++ extFallback info.extension req.path ∨
       fid = compactTimestamp (isoFromMillis (now * 1000)) ++ "-" ++
         (generateId r 6 ++ extFallback info.extension req.path)) := by
  simp only [putModel] at h
  split at h
  · simp at h
  · split at h
    · simp at h
    · split at h
      · exact absurd h (by simp)
      case h_2 info hinfo =>
        split at h
        · split at h
          · simp at h
          · simp only [Option.some.injEq, Prod.mk.injEq] at h
            obtain ⟨hr, hs, hf⟩ := h
            subst hf
            exact ⟨info, hinfo, hr.symm, hs.symm, Or.inr rfl⟩
        · simp only [Option.some.injEq, Prod.mk.injEq] at h
          obtain ⟨hr, hs, hf⟩ := h
          subst hf
          exact ⟨info, hinfo, hr.symm, hs.symm, Or.inl rfl⟩

/-- An absent `Accept` header never enables the Markdown rendering path. -/
theorem mdRender_empty_accept (id : String) : mdRender id "" = false := by
  simp [mdRender, containsSub]

/-! ## Claims -/

/--
Claim C5: for valid image buffers `analyzeContent` should decode the
dimensions per the format layout; for JPEG the first SOF payload holds
1 byte precision, then big-endian height, then width. On a JPEG whose SOF0
segment encodes height 240 (bytes 7–8) and width 320 (bytes 9–10), the code
instead returns width 240 and height 4360: after the 2-byte marker it skips
only one byte, reading the segment-length low byte and the precision byte
as "height" and the real height field as "width".
-/
theorem analyzeContent_jpeg_sof_misparse :
    analyzeContent jpegFixture =
      some ⟨"image/jpeg", ".jpg", some 240, some 4360⟩ ∧
    getU16BE jpegFixture 7 = some 240 ∧ getU16BE jpegFixture 9 = some 320 := by
  decide

/--
Claim C2 (counterexample): the claim says a buffer matching a magic prefix
but shorter than the format's header falls through without reading past the
end; in fact the bare 8-byte PNG signature makes `analyzeContent` read
`getUint32` at offset 16 past the end of the buffer and throw.
-/
theorem analyzeContent_png_signature_throws : analyzeContent pngSignature = none := by
  decide

/--
Claim C2 (amended): `analyzeContent` returns the `text/plain` default,
without any out-of-bounds read, for every buffer that matches none of the
four magic prefixes; buffers that do match a magic prefix but lack the full
header throw instead of falling through.
-/
theorem analyzeContent_no_magic_default (bs : List Byte)
    (h1 : pngCheck bs = false) (h2 : gifCheck bs = false)
    (h3 : jpegCheck bs = false) (h4 : riffWebpCheck bs = false) :
    analyzeContent bs = some ⟨"text/plain", "", none, none⟩ := by
  simp [analyzeContent, h1, h2, h3, h4]

/-- Claim C2 witness: the `"hi"` buffer matches no magic prefix and sniffs
as `text/plain`. -/
theorem analyzeContent_no_magic_default_witness :
    pngCheck [0x68, 0x69] = false ∧ gifCheck [0x68, 0x69] = false ∧
    jpegCheck [0x68, 0x69] = false ∧ riffWebpCheck [0x68, 0x69] = false ∧
    analyzeContent [0x68, 0x69] = some ⟨"text/plain", "", none, none⟩ :=
  ⟨by decide, by decide, by decide, by decide,
   analyzeContent_no_magic_default [0x68, 0x69] (by decide) (by decide) (by decide) (by decide)⟩

/--
Claim C1 (counterexample): a PUT to the explicit path `/pic` does not
create the record under the id `pic`: the inserted id is the random
`aaaaaa` plus the sniffed `.png` extension, and a subsequent GET of `/pic`
returns 404 instead of the uploaded content.
-/
theorem put_explicit_path_ignored_concrete :
    (c1Out.map fun x => x.2.2) = some (some "aaaaaa.png") ∧
    ("aaaaaa.png" : String) ≠ "pic" ∧
    (getModel 86400 ⟨"pic", none, none, none⟩ none 0 c1Store).1.status = 404 := by
  decide

/--
Claim C1 (amended): the explicit PUT path never becomes the id. Every id a
successful PUT inserts is the 6-character random id plus extension
(optionally behind the timestamp disambiguator), hence at least 6
characters long and distinct from any shorter explicit path; the explicit
path is only recorded as `original_path` inside `system_info`, and the
uploaded content is stored under the random id.
-/
theorem put_explicit_path_not_id (TTL MAX_SIZE : Nat) (req : PutReq)
    (r : Nat → Fin 62) (uuid : String) (now : Nat) (store : Store)
    (resp : Resp) (store' : Store) (fid : String)
    (hput : putModel TTL MAX_SIZE req r uuid now store = some (resp, store', some fid)) :
    6 ≤ fid.length ∧ (req.path.length < 6 → fid ≠ req.path) ∧
    ∃ row, alookup fid store' = some row ∧
      row.system_info.original_path = req.path ∧ row.content = req.body := by
  obtain ⟨info, hinfo, hr, hstore, hfid⟩ :=
    putModel_success TTL MAX_SIZE req r uuid now store resp store' fid hput
  have hlen : 6 ≤ fid.length := by
    rcases hfid with hfid | hfid
    · simp [hfid, String.length_append, generateId_length]
    · simp [hfid, String.length_append, generateId_length]
      omega
  refine ⟨hlen, ?_, ?_⟩
  · intro hlt heq
    rw [heq] at hlen
    omega
  · refine ⟨putRow req uuid now TTL info, ?_, rfl, rfl⟩
    rw [hstore]
    exact alookup_sweep_cons now fid _ store (Nat.le_add_right now TTL)

/-- Claim C1 witness: the explicit-path PNG PUT instantiates the amended
statement. -/
theorem put_explicit_path_not_id_witness :
    6 ≤ ("aaaaaa.png" : String).length ∧
    (("pic" : String).length < 6 → ("aaaaaa.png" : String) ≠ "pic") ∧
    ∃ row, alookup "aaaaaa.png" c1Store = some row ∧
      row.system_info.original_path = "pic" ∧ row.content = pngFixture :=
  put_explicit_path_not_id 86400 1048576 c1Req constRandom "tok-1" 0 []
    c1Resp c1Store "aaaaaa.png" (by decide)

/--
Claim C3 (counterexample): when the insert and its single timestamp-prefixed
retry both conflict, the PUT does fail permanently — but the client receives
status 500 (`"Conflict persists after timestamp prefixing"`), not the 409
stated by the claim.
-/
theorem put_double_conflict_returns_500_not_409 :
    (putModel 86400 1048576 c3Req constRandom "tok-3" 1767225600 c3Store).map
        (fun x => (x.1.status, x.2.2)) = some (500, none) ∧
    (500 : Nat) ≠ 409 := by
  decide

/--
Claim C3 (amended): on a duplicate-id conflict the PUT retries exactly once
with the candidate id prefixed by the 14-digit compact timestamp and a
hyphen; if that single retry also conflicts, the operation fails permanently
with no further retries and no insert, and the error is returned to the
client as status 500.
-/
theorem put_conflict_single_retry (TTL MAX_SIZE : Nat) (req : PutReq)
    (r : Nat → Fin 62) (uuid : String) (now : Nat) (store : Store)
    (hcl : ¬ MAX_SIZE < req.contentLength) (hbl : ¬ MAX_SIZE < req.body.length)
    (info : ContentInfo) (hinfo : analyzeContent req.body = some info)
    (hconf : (alookup (generateId r 6 ++ extFallback info.extension req.path) store).isSome = true) :
    ((alookup (compactTimestamp (isoFromMillis (now * 1000)) ++ "-" ++
        (generateId r 6 ++ extFallback info.extension req.path)) store).isSome = false →
      putModel TTL MAX_SIZE req r uuid now store =
        some (putSuccessResp req.origin
                (compactTimestamp (isoFromMillis (now * 1000)) ++ "-" ++
                  (generateId r 6 ++ extFallback info.extension req.path)) uuid,
              sweep now ((compactTimestamp (isoFromMillis (now * 1000)) ++ "-" ++
                  (generateId r 6 ++ extFallback info.extension req.path),
                putRow req uuid now TTL info) :: store),
              some (compactTimestamp (isoFromMillis (now * 1000)) ++ "-" ++
                (generateId r 6 ++ extFallback info.extension req.path)))) ∧
    ((alookup (compactTimestamp (isoFromMillis (now * 1000)) ++ "-" ++
        (generateId r 6 ++ extFallback info.extension req.path)) store).isSome = true →
      putModel TTL MAX_SIZE req r uuid now store = some (conflictResp, sweep now store, none)) ∧
    conflictResp.status = 500 := by
  refine ⟨?_, ?_, rfl⟩
  · intro hretry
    simp [putModel, hcl, hbl, hinfo, hconf, hretry]
  · intro hretry
    simp [putModel, hcl, hbl, hinfo, hconf, hretry]

/-- Claim C3 witness: with only the candidate `aaaaaa` occupied, the retry
inserts under the timestamp-prefixed id. -/
theorem put_conflict_single_retry_witness :
    putModel 86400 1048576 c3Req constRandom "tok-3" 1767225600 [("aaaaaa", dummyRow)] =
      some (putSuccessResp "https://p.est.im" "20260101000000-aaaaaa" "tok-3",
            sweep 1767225600
              (("20260101000000-aaaaaa",
                putRow c3Req "tok-3" 1767225600 86400 ⟨"text/plain", "", none, none⟩) ::
                [("aaaaaa", dummyRow)]),
            some "20260101000000-aaaaaa") := by
  have h := put_conflict_single_retry 86400 1048576 c3Req constRandom "tok-3" 1767225600
    [("aaaaaa", dummyRow)] (by decide) (by decide) ⟨"text/plain", "", none, none⟩
    (by decide) (by decide)
  exact h.1 (by decide)

/--
Claim C4 (counterexample): the 404 response for an unknown id is built with
a bare `Response` and carries none of the mandatory security headers, so not
every outbound response carries them.
-/
theorem get_404_lacks_security_headers :
    (getModel 86400 ⟨"nope", none, none, none⟩ none 0 []).1.status = 404 ∧
    alookup "X-Content-Type-Options"
      (getModel 86400 ⟨"nope", none, none, none⟩ none 0 []).1.headers = none := by
  decide

/--
Claim C4 (amended): the responses built through `SecureResponse` carry
`X-Content-Type-Options: nosniff`, `X-Frame-Options: DENY`,
`Referrer-Policy: strict-origin-when-cross-origin` and the CSP selected by
the HTML flag; but responses built with a bare `Response` — the 404 for an
unknown id and the PUT-success response among them — carry none of these
headers.
-/
theorem security_headers_on_secure_responses_only :
    (∀ (body : Body) (status : Nat) (hs : List (String × String)) (isHtml : Bool),
      alookup "X-Content-Type-Options" (SecureResponse body status hs isHtml).headers =
        some "nosniff" ∧
      alookup "X-Frame-Options" (SecureResponse body status hs isHtml).headers =
        some "DENY" ∧
      alookup "Referrer-Policy" (SecureResponse body status hs isHtml).headers =
        some "strict-origin-when-cross-origin" ∧
      alookup "Content-Security-Policy" (SecureResponse body status hs isHtml).headers =
        some (if isHtml then CSP_HTML else CSP_DEFAULT)) ∧
    (∀ (TTL : Nat) (req : GetReq) (now : Nat) (store : Store),
      hotlinkBlocked req.fetchSite req.fetchDest = false →
      alookup req.id store = none →
      (getModel TTL req none now store).1 = ⟨404, [], Body.empty⟩) ∧
    (∀ origin fid uuid : String,
      alookup "X-Content-Type-Options" (putSuccessResp origin fid uuid).headers = none) := by
  refine ⟨?_, ?_, ?_⟩
  · intro body status hs isHtml
    refine ⟨?_, ?_, ?_, ?_⟩
    · unfold SecureResponse
      rw [alookup_setHeader_ne _ _ (by decide), alookup_setHeader_ne _ _ (by decide),
        alookup_setHeader_ne _ _ (by decide)]
      exact alookup_setHeader_self hs _ _
    · unfold SecureResponse
      rw [alookup_setHeader_ne _ _ (by decide), alookup_setHeader_ne _ _ (by decide)]
      exact alookup_setHeader_self _ _ _
    · unfold SecureResponse
      rw [alookup_setHeader_ne _ _ (by decide)]
      exact alookup_setHeader_self _ _ _
    · exact alookup_setHeader_self _ _ _
  · intro TTL req now store hhot hmiss
    simp [getModel, hhot, hmiss]
  · intro origin fid uuid
    simp [putSuccessResp, alookup]

/-- Claim C4 witness: concrete instances of the amended statement. -/
theorem security_headers_on_secure_responses_only_witness :
    alookup "X-Content-Type-Options" (SecureResponse Body.empty 200 [] false).headers =
      some "nosniff" ∧
    (getModel 5 ⟨"q", none, none, none⟩ none 0 []).1 = ⟨404, [], Body.empty⟩ ∧
    alookup "X-Content-Type-Options" (putSuccessResp "o" "f" "u").headers = none :=
  ⟨(security_headers_on_secure_responses_only.1 Body.empty 200 [] false).1,
   security_headers_on_secure_responses_only.2.1 5 ⟨"q", none, none, none⟩ 0 []
     (by decide) (by decide),
   security_headers_on_secure_responses_only.2.2 "o" "f" "u"⟩

/--
Claim C7: on a GET whose id has no record the status is 404; on a GET
whose record's expiry timestamp is in the past the status is 410 with an
empty body (the expired content is never returned) and the row is lazily
deleted.
-/
theorem get_missing_404_expired_410 (TTL : Nat) (req : GetReq) (now : Nat) (store : Store)
    (hhot : hotlinkBlocked req.fetchSite req.fetchDest = false) :
    (alookup req.id store = none →
      getModel TTL req none now store = (⟨404, [], Body.empty⟩, store, none)) ∧
    (∀ row, alookup req.id store = some row → row.etime < now →
      getModel TTL req none now store = (⟨410, [], Body.empty⟩, eraseId store req.id, none) ∧
      alookup req.id (eraseId store req.id) = none) := by
  refine ⟨?_, ?_⟩
  · intro hmiss
    simp [getModel, hhot, hmiss]
  · intro row hlk hexp
    exact ⟨by simp [getModel, hhot, hlk, hexp], alookup_eraseId_self store req.id⟩

/-- Claim C7 witness: an empty store yields 404; an expired row yields 410. -/
theorem get_missing_404_expired_410_witness :
    getModel 86400 ⟨"gone", none, none, none⟩ none 5 [] =
      (⟨404, [], Body.empty⟩, [], none) ∧
    (getModel 86400 ⟨"old", none, none, none⟩ none 10000000000 [("old", dummyRow)] =
      (⟨410, [], Body.empty⟩, eraseId [("old", dummyRow)] "old", none) ∧
     alookup "old" (eraseId [("old", dummyRow)] "old") = none) :=
  ⟨(get_missing_404_expired_410 86400 ⟨"gone", none, none, none⟩ 5 [] (by decide)).1
     (by decide),
   (get_missing_404_expired_410 86400 ⟨"old", none, none, none⟩ 10000000000
      [("old", dummyRow)] (by decide)).2 dummyRow (by decide) (by decide)⟩

/--
Claim C9: a GET whose `Sec-Fetch-Site` is present and neither empty nor
`same-origin`/`same-site`, and whose `Sec-Fetch-Dest` is present and
neither empty nor `document`, is answered 403 through `SecureResponse`
with the store untouched — uniformly in the store, i.e. before any
backing-store access.
-/
theorem hotlink_cross_site_403 (TTL : Nat) (req : GetReq) (cache : Option Resp)
    (now : Nat) (s d : String)
    (hsite : req.fetchSite = some s) (hs1 : s ≠ "") (hs2 : s ≠ "same-origin")
    (hs3 : s ≠ "same-site")
    (hdest : req.fetchDest = some d) (hd1 : d ≠ "") (hd2 : d ≠ "document") :
    ∀ store : Store,
      getModel TTL req cache now store =
        (SecureResponse (Body.text "") 403 [] false, store, cache) := by
  intro store
  have hb : hotlinkBlocked req.fetchSite req.fetchDest = true := by
    rw [hsite, hdest]
    simp [hotlinkBlocked, hs1, hs2, hs3, hd1, hd2]
  simp [getModel, hb]

/-- Claim C9 witness: a cross-site image fetch is rejected with 403. -/
theorem hotlink_cross_site_403_witness :
    getModel 86400 ⟨"x", some "cross-site", some "image", none⟩ none 0
        [("x", dummyRow)] =
      (SecureResponse (Body.text "") 403 [] false, [("x", dummyRow)], none) :=
  hotlink_cross_site_403 86400 ⟨"x", some "cross-site", some "image", none⟩ none 0
    "cross-site" "image" rfl (by decide) (by decide) (by decide) rfl (by decide) (by decide)
    [("x", dummyRow)]

/--
Claim C10: the deferred store update of a cache-miss GET of a live paste
sets `etime` to `now + TTL`, `atime` to `now`, increments `views`, and
changes nothing else: `content`, `uploader_info`, `system_info` (with the
delete token) and `ctime` are untouched, and every other id's row is
unchanged.
-/
theorem get_update_frame (TTL : Nat) (req : GetReq) (now : Nat) (store : Store) (row : Row)
    (hhot : hotlinkBlocked req.fetchSite req.fetchDest = false)
    (hlk : alookup req.id store = some row)
    (hlive : ¬ row.etime < now) :
    alookup req.id (getModel TTL req none now store).2.1 = some (refreshRow TTL now row) ∧
    (refreshRow TTL now row).counters.views = row.counters.views + 1 ∧
    (refreshRow TTL now row).etime = now + TTL ∧
    (refreshRow TTL now row).atime = some now ∧
    (refreshRow TTL now row).content = row.content ∧
    (refreshRow TTL now row).uploader_info = row.uploader_info ∧
    (refreshRow TTL now row).system_info = row.system_info ∧
    (refreshRow TTL now row).ctime = row.ctime ∧
    ∀ j, j ≠ req.id → alookup j (getModel TTL req none now store).2.1 = alookup j store := by
  have hstore : (getModel TTL req none now store).2.1 =
      updateRow store req.id (refreshRow TTL now) := by
    cases hmd : mdRender req.id (req.accept.getD "") <;>
      simp [getModel, hhot, hlk, hlive, hmd]
  refine ⟨?_, rfl, rfl, rfl, rfl, rfl, rfl, rfl, ?_⟩
  · rw [hstore, alookup_updateRow_self, hlk]; rfl
  · intro j hj
    rw [hstore, alookup_updateRow_ne store req.id _ j hj]

/-- Claim C10 witness: the frame condition at a concrete live row. -/
theorem get_update_frame_witness :
    alookup "h" (getModel 86400 ⟨"h", none, none, none⟩ none 7 [("h", freshRow)]).2.1 =
      some (refreshRow 86400 7 freshRow) ∧
    (refreshRow 86400 7 freshRow).counters.views = freshRow.counters.views + 1 ∧
    (refreshRow 86400 7 freshRow).etime = 7 + 86400 ∧
    (refreshRow 86400 7 freshRow).atime = some 7 ∧
    (refreshRow 86400 7 freshRow).content = freshRow.content ∧
    (refreshRow 86400 7 freshRow).uploader_info = freshRow.uploader_info ∧
    (refreshRow 86400 7 freshRow).system_info = freshRow.system_info ∧
    (refreshRow 86400 7 freshRow).ctime = freshRow.ctime ∧
    ∀ j, j ≠ "h" →
      alookup j (getModel 86400 ⟨"h", none, none, none⟩ none 7 [("h", freshRow)]).2.1 =
        alookup j [("h", freshRow)] :=
  get_update_frame 86400 ⟨"h", none, none, none⟩ 7 [("h", freshRow)] freshRow
    (by decide) (by decide) (by decide)

/--
Claim C6: a successful PUT of any content `X` answers with the retrieval
URL `<origin>/<id>` plus a newline, and a later cache-miss, non-hotlinked,
non-Markdown GET of that id before expiry returns status 200 with a body
byte-for-byte equal to `X` and the `Content-Type` determined by sniffing
`X`.
-/
theorem put_then_get_roundtrip (TTL MAX_SIZE : Nat) (req : PutReq)
    (r : Nat → Fin 62) (uuid : String) (now : Nat) (store : Store)
    (resp1 : Resp) (store1 : Store) (fid : String)
    (hput : putModel TTL MAX_SIZE req r uuid now store = some (resp1, store1, some fid))
    (greq : GetReq) (hgid : greq.id = fid)
    (hhot : hotlinkBlocked greq.fetchSite greq.fetchDest = false)
    (now' : Nat) (hfresh : now' ≤ now + TTL)
    (hmd : mdRender fid (greq.accept.getD "") = false)
    (info : ContentInfo) (hinfo : analyzeContent req.body = some info) :
    resp1.body = Body.text (req.origin ++ "/" ++ fid ++ "\n") ∧
    (getModel TTL greq none now' store1).1.status = 200 ∧
    (getModel TTL greq none now' store1).1.body = Body.bytes req.body ∧
    alookup "Content-Type" (getModel TTL greq none now' store1).1.headers =
      some (if info.mime = "" then "text/plain" else info.mime) := by
  obtain ⟨info', hinfo', hr, hstore, _⟩ :=
    putModel_success TTL MAX_SIZE req r uuid now store resp1 store1 fid hput
  have hii : info' = info := by
    rw [hinfo] at hinfo'
    exact (Option.some.inj hinfo').symm
  subst hii
  have hlk : alookup greq.id store1 = some (putRow req uuid now TTL info') := by
    rw [hgid, hstore]
    exact alookup_sweep_cons now fid _ store (Nat.le_add_right now TTL)
  have hlive : ¬ (putRow req uuid now TTL info').etime < now' := by
    simp only [putRow]
    omega
  have hge := getModel_live TTL greq now' store1 (putRow req uuid now TTL info')
    hhot hlk hlive (by rw [hgid]; exact hmd)
  refine ⟨by rw [hr]; rfl, ?_, ?_, ?_⟩
  · rw [hge]; rfl
  · rw [hge]; rfl
  · rw [hge]
    exact liveResp_CT TTL now' (putRow req uuid now TTL info')

/-- Claim C6 witness: the Hello-World scenario — the PUT body is
`<origin>/aaaaaa` plus a newline and the GET returns the exact bytes with
`Content-Type: text/plain`. -/
theorem put_then_get_roundtrip_witness :
    c6Resp.body = Body.text ("https://p.est.im" ++ "/" ++ "aaaaaa" ++ "\n") ∧
    (getModel 86400 ⟨"aaaaaa", none, none, none⟩ none 150 c6Store).1.status = 200 ∧
    (getModel 86400 ⟨"aaaaaa", none, none, none⟩ none 150 c6Store).1.body =
      Body.bytes helloBytes ∧
    alookup "Content-Type"
        (getModel 86400 ⟨"aaaaaa", none, none, none⟩ none 150 c6Store).1.headers =
      some (if ("text/plain" : String) = "" then "text/plain" else "text/plain") :=
  put_then_get_roundtrip 86400 1048576 c6Req constRandom "tok-6" 100 []
    c6Resp c6Store "aaaaaa" (by decide) ⟨"aaaaaa", none, none, none⟩ rfl (by decide)
    150 (by omega) (mdRender_empty_accept "aaaaaa") ⟨"text/plain", "", none, none⟩
    (by decide)

/-- A cache hit returns the cached response verbatim, leaving store and cache
untouched. -/
theorem getModel_hit (TTL : Nat) (req : GetReq) (now : Nat) (store : Store) (c : Resp)
    (hhot : hotlinkBlocked req.fetchSite req.fetchDest = false) :
    getModel TTL req (some c) now store = (c, store, some c) := by
  simp [getModel, hhot]

/-- Correspondence between the concrete GET sequence and the abstract view
sequence: reports are the rendered abstract values. The invariant carried is
that the stored row is live with counter `v` and a present cache entry
reports exactly `v`. -/
theorem viewsRun_spec (TTL : Nat) (id : String) (now : Nat) :
    ∀ (choices : List Bool) (v : Nat) (cached : Bool) (store : Store)
      (cache : Option Resp) (row : Row),
      alookup id store = some row → row.counters.views = v → ¬ row.etime < now →
      cache.isSome = cached →
      (∀ c, cache = some c →
        alookup "X-Paste-Views" c.headers = some (toString v)) →
      viewsRun TTL id now choices (store, cache) =
        (viewsSpec choices v cached).map (fun x => some (toString x)) := by
  intro choices
  induction choices with
  | nil => intro v cached store cache row _ _ _ _ _; rfl
  | cons e es ih =>
    intro v cached store cache row hlk hv hlive hc hcv
    by_cases he : (!e && cached) = true
    · have he12 : (!e) = true ∧ cached = true := by simpa using he
      obtain ⟨he1, he2⟩ := he12
      have he1' : e = false := by cases e; rfl; simp at he1
      subst he1'
      cases cache with
      | none => rw [he2] at hc; simp at hc
      | some c =>
        have hstep : viewsStep TTL id now (store, some c) false =
            (alookup "X-Paste-Views" c.headers, (store, some c)) := by
          simp [viewsStep, getModel_hit TTL ⟨id, none, none, none⟩ now store c rfl]
        have hspec : viewsSpec (false :: es) v cached =
            v :: viewsSpec es v cached := by
          simp [viewsSpec, he2]
        rw [hspec]
        simp only [viewsRun, hstep, List.map_cons]
        refine congrArg₂ _ (hcv c rfl) ?_
        exact ih v cached store (some c) row hlk hv hlive hc hcv
    · have he' : (!e && cached) = false := by
        cases hb : (!e && cached); rfl; exact absurd hb he
      have hpass : (if e then none else cache) = none := by
        cases e
        · simp only [Bool.not_false, Bool.true_and] at he'
          rw [he'] at hc
          cases cache
          · rfl
          · simp at hc
        · rfl
      have hmd := mdRender_empty_accept id
      have hge := getModel_live TTL ⟨id, none, none, none⟩ now store row rfl hlk hlive hmd
      have hstep : viewsStep TTL id now (store, cache) e =
          (some (toString (v + 1)),
           (updateRow store id (refreshRow TTL now), some (liveResp TTL now row))) := by
        simp only [viewsStep, hpass, hge]
        rw [liveResp_XPV, hv]
      have hspec : viewsSpec (e :: es) v cached =
          (v + 1) :: viewsSpec es (v + 1) true := by
        simp [viewsSpec, he']
      rw [hspec]
      simp only [viewsRun, hstep, List.map_cons]
      refine congrArg₂ _ rfl ?_
      refine ih (v + 1) true (updateRow store id (refreshRow TTL now))
        (some (liveResp TTL now row)) (refreshRow TTL now row) ?_ ?_ ?_ rfl ?_
      · rw [alookup_updateRow_self, hlk]; rfl
      · simp [refreshRow, hv]
      · simp [refreshRow]
      · intro c hcc
        rw [Option.some.inj hcc.symm] at *
        rw [liveResp_XPV, hv]

/-- The abstract view sequence is non-decreasing, and bounded below by the
starting counter. -/
theorem viewsSpec_chain : ∀ (choices : List Bool) (v : Nat) (cached : Bool),
    List.Chain' (· ≤ ·) (viewsSpec choices v cached) ∧
    (∀ h, (viewsSpec choices v cached).head? = some h → v ≤ h) := by
  intro choices
  induction choices with
  | nil =>
    intro v cached
    exact ⟨List.chain'_nil, fun h hh => by simp [viewsSpec] at hh⟩
  | cons e es ih =>
    intro v cached
    by_cases he : (!e && cached) = true
    · constructor
      · show List.Chain' (· ≤ ·) (viewsSpec (e :: es) v cached)
        have hspec : viewsSpec (e :: es) v cached = v :: viewsSpec es v cached := by
          simp [viewsSpec, he]
        rw [hspec, List.chain'_cons']
        exact ⟨fun y hy => (ih v cached).2 y hy, (ih v cached).1⟩
      · intro h hh
        have hspec : viewsSpec (e :: es) v cached = v :: viewsSpec es v cached := by
          simp [viewsSpec, he]
        rw [hspec] at hh
        simp at hh
        omega
    · have he' : (!e && cached) = false := by
        cases hb : (!e && cached); rfl; exact absurd hb he
      have hspec : viewsSpec (e :: es) v cached =
          (v + 1) :: viewsSpec es (v + 1) true := by
        simp [viewsSpec, he']
      constructor
      · rw [hspec, List.chain'_cons']
        exact ⟨fun y hy => (ih (v + 1) true).2 y hy, (ih (v + 1) true).1⟩
      · intro h hh
        rw [hspec] at hh
        simp at hh
        omega

/-- A single GET never decreases the stored view counter of a surviving row. -/
theorem viewsStep_views_mono (TTL : Nat) (id : String) (now : Nat)
    (st : Store × Option Resp) (evict : Bool) (row row' : Row)
    (h : alookup id st.1 = some row)
    (h' : alookup id (viewsStep TTL id now st evict).2.1 = some row') :
    row.counters.views ≤ row'.counters.views := by
  rcases hcc : (if evict then none else st.2) with _ | c
  · by_cases hexp : row.etime < now
    · have hst : (viewsStep TTL id now st evict).2.1 = eraseId st.1 id := by
        simp [viewsStep, hcc, getModel, hotlinkBlocked, h, hexp]
      rw [hst, alookup_eraseId_self] at h'
      cases h'
    · have hst : (viewsStep TTL id now st evict).2.1 =
          updateRow st.1 id (refreshRow TTL now) := by
        cases hmd : mdRender id "" <;>
          simp [viewsStep, hcc, getModel, hotlinkBlocked, h, hexp, hmd]
      rw [hst, alookup_updateRow_self, h] at h'
      have : row' = refreshRow TTL now row := (Option.some.inj h').symm
      rw [this]
      simp [refreshRow]
  · have hst : (viewsStep TTL id now st evict).2.1 = st.1 := by
      simp [viewsStep, hcc, getModel, hotlinkBlocked]
    rw [hst, h] at h'
    have : row' = row := (Option.some.inj h').symm
    rw [this]

/--
Claim C8: starting from a freshly created paste (counter 0, no cache
entry), any sequence of GETs — cache hits replaying the stored entry or
misses after eviction — reports `X-Paste-Views` values that render a
non-decreasing sequence of naturals whose first element is 1; and no GET
ever decreases the stored (non-negative) counter of a surviving row.
-/
theorem views_monotone (TTL : Nat) (id : String) (now : Nat) (store : Store)
    (row0 : Row) (choices : List Bool)
    (h0 : alookup id store = some row0) (hv : row0.counters.views = 0)
    (hlive : ¬ row0.etime < now) :
    viewsRun TTL id now choices (store, none) =
      (viewsSpec choices 0 false).map (fun v => some (toString v)) ∧
    List.Chain' (· ≤ ·) (viewsSpec choices 0 false) ∧
    (viewsSpec choices 0 false).head?.getD 1 = 1 ∧
    (∀ (st : Store × Option Resp) (evict : Bool) (row row' : Row),
      alookup id st.1 = some row →
      alookup id (viewsStep TTL id now st evict).2.1 = some row' →
      row.counters.views ≤ row'.counters.views) := by
  refine ⟨?_, (viewsSpec_chain choices 0 false).1, ?_, ?_⟩
  · exact viewsRun_spec TTL id now choices 0 false store none row0 h0 hv hlive rfl
      (fun c hcc => by cases hcc)
  · cases choices with
    | nil => rfl
    | cons e es => simp [viewsSpec]
  · intro st evict row row' h h'
    exact viewsStep_views_mono TTL id now st evict row row' h h'

/-- Claim C8 witness: three GETs (miss, evicted miss, hit) on a fresh paste. -/
theorem views_monotone_witness :
    viewsRun 86400 "v" 7 [false, true, false] ([("v", freshRow)], none) =
      (viewsSpec [false, true, false] 0 false).map (fun v => some (toString v)) ∧
    List.Chain' (· ≤ ·) (viewsSpec [false, true, false] 0 false) ∧
    (viewsSpec [false, true, false] 0 false).head?.getD 1 = 1 ∧
    freshRow.counters.views ≤ freshRow.counters.views :=
  have h := views_monotone 86400 "v" 7 [("v", freshRow)] freshRow [false, true, false]
    (by decide) (by decide) (by decide)
  ⟨h.1, h.2.1, h.2.2.1,
   h.2.2.2 ([("v", freshRow)], some ⟨200, [], Body.empty⟩) false freshRow freshRow
     (by decide) (by decide)⟩

end PasteService
